import Mathlib

/-!
# yas_acc_kernel.c : the sampling core of the Yamaha accelerometer driver

A shallow embedding of `drivers/staging/iio/magnetometer/yas_acc_kernel.c`.

* The driver state `struct yas_state` becomes the structure `yas_state`; the
  fields the driver code reads and writes are kept with their C names.
* Calls into the sensor backend (`st->acc.set_enable`, `set_delay`,
  `set_position`, `measure`), into the work queue and into the trigger are
  recorded, in program order, in the `trace` field.  Values returned by the
  backend and by the clock are arguments of the embedded functions.
* C integers are `Int`, wrapped explicitly where the C code stores into a
  narrower type (`wrap16`, `wrap32`).  A division by zero is undefined in C:
  the embedded function then returns `none`.
* `mutex_lock` / `mutex_unlock` pairs are not represented: every embedded
  function is one sequential run of the C function.
-/

namespace Yas

/-! ## Machine integers -/

/-- Conversion of an integer to `int16_t` (twos complement wrap). -/
def wrap16 (x : Int) : Int := (x + 32768) % 65536 - 32768

/-- Conversion of an integer to `int32_t` (twos complement wrap). -/
def wrap32 (x : Int) : Int := (x + 2147483648) % 4294967296 - 2147483648

/-- Conversion of an integer to `uint32_t`. -/
def wrapU32 (x : Int) : Int := x % 4294967296

/-- C integer division `a / b`: truncation toward zero, undefined (`none`)
for a zero divisor. -/
def cdiv (a b : Int) : Option Int :=
  if b = 0 then none else some (Int.tdiv a b)

/-- Modelled from the spec: the constant `MSEC_PER_SEC` of `linux/time.h` (not
in this file), the 1000 of `DelayMs = 1000 / SamplingPeriod`. -/
def MSEC_PER_SEC : Int := 1000

/-- Modelled from the spec: the error number `EINVAL` (InvalidArgument) of
`errno-base.h`, not in this file. -/
def EINVAL : Int := 22

/-- Modelled from the spec: the error number `EFAULT`, returned for a backend
failure, of `errno-base.h`, not in this file. -/
def EFAULT : Int := 14

/-- Modelled from the spec: the error number `ENOMEM` (allocation failure) of
`errno-base.h`, not in this file. -/
def ENOMEM : Int := 12

/-! ## Data model -/

/-- A three element `int32_t` array (`accel_data[3]`, `calib_bias[3]`,
`acc[0].xyz.v[3]`). -/
structure Vec3 where
  x : Int
  y : Int
  z : Int
  deriving DecidableEq, Repr

/-- Array read `a[i]` for `i` in 0, 1, 2; an index outside the array reads as
`none`. -/
def Vec3.get? (a : Vec3) (i : Int) : Option Int :=
  if i = 0 then some a.x
  else if i = 1 then some a.y
  else if i = 2 then some a.z
  else none

/-- Array write `a[i] = v` for `i` in 0, 1, 2; `none` outside the array. -/
def Vec3.set? (a : Vec3) (i : Int) (v : Int) : Option Vec3 :=
  if i = 0 then some { a with x := v }
  else if i = 1 then some { a with y := v }
  else if i = 2 then some { a with z := v }
  else none

/-- Array read with a loop index known to be 0, 1 or 2. -/
def Vec3.get (a : Vec3) (i : Nat) : Int :=
  match i with
  | 0 => a.x
  | 1 => a.y
  | _ => a.z

/-- Array write with a loop index known to be 0, 1 or 2. -/
def Vec3.set (a : Vec3) (i : Nat) (v : Int) : Vec3 :=
  match i with
  | 0 => { a with x := v }
  | 1 => { a with y := v }
  | _ => { a with z := v }

/-- Calls that leave the driver, in the order they are made. -/
inductive Event where
  | set_enable (enable : Int)
  | set_delay (delay : Int)
  | set_position (position : Int)
  | get_position
  | measure
  | trig_poll
  | schedule_delayed_work (delay : Nat)
  | cancel_delayed_work_sync
  deriving DecidableEq, Repr

/-- The fields of `struct yas_state` used by the sampling core.  `work` is the
delayed work item: `some d` when it is pending with delay `d` (jiffies),
`none` when it is idle. -/
structure yas_state where
  sampling_frequency : Int
  pseudo_irq_enable : Int
  accel_data : Vec3
  calib_bias : Vec3
  work : Option Nat
  trace : List Event
  deriving DecidableEq, Repr

/-- Append one outgoing call to the trace. -/
def yas_state.emit (st : yas_state) (e : Event) : yas_state :=
  { st with trace := st.trace ++ [e] }

/-! ## Kernel primitives used by the driver -/

/-- Modelled from the spec: `atomic_cmpxchg` (kernel atomics, not in this
file) is the compare-and-swap of the enable flag: it returns the old value
and stores `new` only when the old value equals `old`. -/
def atomic_cmpxchg (st : yas_state) (old new : Int) : Int × yas_state :=
  if st.pseudo_irq_enable = old then
    (st.pseudo_irq_enable, { st with pseudo_irq_enable := new })
  else
    (st.pseudo_irq_enable, st)

/-- Modelled from the spec: `schedule_delayed_work` (kernel work queue, not in
this file) moves the work item from idle to scheduled; a work item that is
already pending stays as it is. -/
def schedule_delayed_work (st : yas_state) (delay : Nat) : yas_state :=
  let st1 := st.emit (Event.schedule_delayed_work delay)
  match st1.work with
  | some _ => st1
  | none => { st1 with work := some delay }

/-- Modelled from the spec: `cancel_delayed_work_sync` (kernel work queue, not
in this file) synchronously cancels the pending or running work item: the
work item is idle when it returns. -/
def cancel_delayed_work_sync (st : yas_state) : yas_state :=
  { st.emit Event.cancel_delayed_work_sync with work := none }

/-! ## EnableController : lines 125-156 -/

/-- Driver function `yas_pseudo_irq_enable` (line 125). -/
def yas_pseudo_irq_enable (st : yas_state) : Int × yas_state :=
  let (old, st1) := atomic_cmpxchg st 0 1
  if old = 0 then
    let st2 := st1.emit (Event.set_enable 1)
    (0, schedule_delayed_work st2 0)
  else
    (0, st1)

/-- Driver function `yas_pseudo_irq_disable` (line 137). -/
def yas_pseudo_irq_disable (st : yas_state) : Int × yas_state :=
  let (old, st1) := atomic_cmpxchg st 1 0
  if old ≠ 0 then
    let st2 := cancel_delayed_work_sync st1
    (0, st2.emit (Event.set_enable 0))
  else
    (0, st1)

/-- Driver function `yas_set_pseudo_irq` (line 149). -/
def yas_set_pseudo_irq (st : yas_state) (enable : Int) : Int × yas_state :=
  if enable ≠ 0 then
    (0, (yas_pseudo_irq_enable st).2)
  else
    (0, (yas_pseudo_irq_disable st).2)

/-- Driver function `yas_data_rdy_trig_poll` (line 158): raises the trigger notification. -/
def yas_data_rdy_trig_poll (st : yas_state) : Int × yas_state :=
  (0, st.emit Event.trig_poll)

/-! ## PowerManager : lines 492-513 and 627-648 -/

/-- Driver function `yas_early_suspend` (line 493). -/
def yas_early_suspend (st : yas_state) : yas_state :=
  if st.pseudo_irq_enable ≠ 0 then
    (cancel_delayed_work_sync st).emit (Event.set_enable 0)
  else
    st

/-- Driver function `yas_late_resume` (line 504). -/
def yas_late_resume (st : yas_state) : yas_state :=
  if st.pseudo_irq_enable ≠ 0 then
    schedule_delayed_work (st.emit (Event.set_enable 1)) 0
  else
    st

/-- Driver function `yas_suspend` (line 628). -/
def yas_suspend (st : yas_state) : Int × yas_state :=
  if st.pseudo_irq_enable ≠ 0 then
    (0, (cancel_delayed_work_sync st).emit (Event.set_enable 0))
  else
    (0, st)

/-- Driver function `yas_resume` (line 639). -/
def yas_resume (st : yas_state) : Int × yas_state :=
  if st.pseudo_irq_enable ≠ 0 then
    (0, schedule_delayed_work (st.emit (Event.set_enable 1)) 0)
  else
    (0, st)

/-! ## ControlSurface : lines 303-416 -/

/-- Driver function `yas_position_show` (line 303).  `ret` is what `st->acc.get_position()`
returns; the result is the return value and the text written to `buf`. -/
def yas_position_show (st : yas_state) (ret : Int) : (Int × String) × yas_state :=
  let st1 := st.emit Event.get_position
  if ret < 0 then
    ((-EFAULT, ""), st1)
  else
    let buf := toString ret ++ "\n"
    ((buf.length, buf), st1)

/-- Driver function `yas_position_store` (line 317).  `scanned` is what `sscanf(buf, "%d\n",
&position)` converted (`none` when the text holds no integer, in which case
`position` is not assigned and keeps the indeterminate value `junk` of the
uninitialised local); `ret` is what `st->acc.set_position` returns. -/
def yas_position_store (st : yas_state) (scanned : Option Int) (junk : Int)
    (ret : Int) (count : Int) : Int × yas_state :=
  let position :=
    match scanned with
    | some v => v
    | none => junk
  let st1 := st.emit (Event.set_position position)
  if ret < 0 then
    (-EFAULT, st1)
  else
    (count, st1)

/-- Driver function `yas_sampling_frequency_show` (line 332): the return value and the text
written to `buf`. -/
def yas_sampling_frequency_show (st : yas_state) : Int × String :=
  let buf := toString st.sampling_frequency ++ "\n"
  (buf.length, buf)

/-- Driver function `yas_sampling_frequency_store` (line 340).  `kret` and `data` are the
return value of `kstrtoint(buf, 10, &data)` and the integer it parsed (`data`
is meaningful when `kret` is 0).  The field `sampling_frequency` is an
`int16_t`; the result is `none` when the division divides by zero. -/
def yas_sampling_frequency_store (st : yas_state) (kret data : Int)
    (count : Int) : Option (Int × yas_state) :=
  if kret ≠ 0 then
    some (kret, st)
  else if data ≤ 0 then
    some (-EINVAL, st)
  else
    let st1 := { st with sampling_frequency := wrap16 data }
    match cdiv MSEC_PER_SEC st1.sampling_frequency with
    | none => none
    | some delay =>
      let st2 := st1.emit (Event.set_delay delay)
      some (count, st2)

/-- The channel types of `yas_channels` (line 463). -/
inductive iio_chan_type where
  | IIO_ACCEL
  | IIO_TIMESTAMP
  deriving DecidableEq, Repr

/-- The fields of `struct iio_chan_spec` the driver reads. -/
structure iio_chan_spec where
  type : iio_chan_type
  channel2 : Int
  deriving DecidableEq, Repr

/-- Modelled from the spec: the axis modifier `IIO_MOD_X` of the `iio_modifier`
enumeration of the IIO headers, not in this file (the enumeration starts with
`IIO_NO_MOD`, followed by X, Y, Z). -/
def IIO_MOD_X : Int := 1

/-- Modelled from the spec: the axis modifier `IIO_MOD_Y`, next after X. -/
def IIO_MOD_Y : Int := 2

/-- Modelled from the spec: the axis modifier `IIO_MOD_Z`, next after Y. -/
def IIO_MOD_Z : Int := 3

/-- Driver initialiser `YAS_ACCELEROMETER_CHANNEL(axis)` (line 453) for the modifier `m`. -/
def YAS_ACCELEROMETER_CHANNEL (m : Int) : iio_chan_spec :=
  { type := iio_chan_type.IIO_ACCEL, channel2 := m }

/-- Driver table `yas_channels` (line 463). -/
def yas_channels : List iio_chan_spec :=
  [YAS_ACCELEROMETER_CHANNEL IIO_MOD_X,
   YAS_ACCELEROMETER_CHANNEL IIO_MOD_Y,
   YAS_ACCELEROMETER_CHANNEL IIO_MOD_Z,
   { type := iio_chan_type.IIO_TIMESTAMP, channel2 := 0 }]

/-- The values of the `mask` argument of `read_raw` / `write_raw` that the
driver distinguishes: `RAW` is the value 0, `OTHER` any value without a
`case`. -/
inductive info_mask where
  | RAW
  | IIO_CHAN_INFO_SCALE
  | IIO_CHAN_INFO_CALIBSCALE
  | IIO_CHAN_INFO_CALIBBIAS
  | OTHER
  deriving DecidableEq, Repr

/-- Modelled from the spec: the return code `IIO_VAL_INT` of the IIO headers
(not in this file): the value read is an integer. -/
def IIO_VAL_INT : Int := 1

/-- Modelled from the spec: the return code `IIO_VAL_INT_PLUS_MICRO` of the IIO
headers (not in this file): the value read is an integer and a micro part. -/
def IIO_VAL_INT_PLUS_MICRO : Int := 2

/-- Driver function `yas_write_raw` (line 360); `none` when the array index leaves
`calib_bias`. -/
def yas_write_raw (st : yas_state) (chan : iio_chan_spec) (val _val2 : Int)
    (mask : info_mask) : Option (Int × yas_state) :=
  match mask with
  | info_mask.IIO_CHAN_INFO_CALIBBIAS =>
    match st.calib_bias.set? (chan.channel2 - IIO_MOD_X) val with
    | none => none
    | some cb => some (0, { st with calib_bias := cb })
  | _ => some (0, st)

/-- The outputs of `yas_read_raw`: the return value and what was stored
through `val` and `val2` (`none` when the pointer was not written). -/
structure read_raw_result where
  ret : Int
  val : Option Int
  val2 : Option Int
  deriving DecidableEq, Repr

/-- Driver function `yas_read_raw` (line 381); `none` when the array index leaves the
array. -/
def yas_read_raw (st : yas_state) (chan : iio_chan_spec) (mask : info_mask) :
    Option read_raw_result :=
  if chan.type ≠ iio_chan_type.IIO_ACCEL then
    some { ret := -EINVAL, val := none, val2 := none }
  else
    match mask with
    | info_mask.RAW =>
      match st.accel_data.get? (chan.channel2 - IIO_MOD_X) with
      | none => none
      | some v => some { ret := IIO_VAL_INT, val := some v, val2 := none }
    | info_mask.IIO_CHAN_INFO_SCALE
    | info_mask.IIO_CHAN_INFO_CALIBSCALE =>
      some { ret := IIO_VAL_INT_PLUS_MICRO, val := some 0, val2 := some 1 }
    | info_mask.IIO_CHAN_INFO_CALIBBIAS =>
      match st.calib_bias.get? (chan.channel2 - IIO_MOD_X) with
      | none => none
      | some v => some { ret := IIO_VAL_INT, val := some v, val2 := none }
    | info_mask.OTHER =>
      some { ret := -EINVAL, val := none, val2 := none }

/-! ## PollLoop : lines 418-446 -/

/-- The value of the local `delay` of `yas_work_func` at the call of
`schedule_delayed_work` (lines 441-444).  `MSEC_PER_SEC` is a `long`,
`time_after - time_before` a `uint32_t`, and the difference is stored into an
`int32_t`: whatever the width of `long`, the stored value is the difference
reduced to 32 bits, twos complement. -/
def yas_work_delay (sampling_frequency time_before time_after : Int) : Option Int :=
  match cdiv MSEC_PER_SEC sampling_frequency with
  | none => none
  | some q =>
    let delay := wrap32 (q - wrapU32 (time_after - time_before))
    if delay ≤ 0 then some 1 else some delay

/-- Driver function `yas_work_func` (line 418).  `ret` and `acc` are what
`st->acc.measure(acc, 1)` returns and stores, `time_before` and `time_after`
the two readings of `jiffies_to_msecs(jiffies)`; `msecs_to_jiffies` is the
conversion of the kernel. -/
def yas_work_func (msecs_to_jiffies : Nat → Nat) (st : yas_state) (ret : Int)
    (acc : Vec3) (time_before time_after : Int) : Option yas_state :=
  let st1 := st.emit Event.measure
  let data := [0, 1, 2].foldl
    (fun a i => a.set i (wrap32 (acc.get i - st1.calib_bias.get i))) st1.accel_data
  let st2 := if ret = 1 then { st1 with accel_data := data } else st1
  let st3 := if ret = 1 then (yas_data_rdy_trig_poll st2).2 else st2
  match yas_work_delay st3.sampling_frequency time_before time_after with
  | none => none
  | some delay => some (schedule_delayed_work st3 (msecs_to_jiffies delay.toNat))

/-! ## CaptureTrigger : lines 168-205 -/

/-- One object stored into the record buffer: an `int32_t` or an `s64`. -/
inductive Cell where
  | s32 (v : Int)
  | s64 (v : Int)
  deriving DecidableEq, Repr

/-- Modelled from the spec: the return code `IRQ_HANDLED` of
`linux/irqreturn.h`, not in this file. -/
def IRQ_HANDLED : Int := 1

/-- Modelled from the spec: the bitmap test `bitmap_empty(mask, nbits)` of
`linux/bitmap.h` (not in this file): no bit below `nbits` is set. -/
def bitmap_empty (mask nbits : Nat) : Bool := mask % 2 ^ nbits = 0

/-- The expression `a & ~(sizeof(s64) - 1)` of line 198: the low three bits of
`a` are cleared. -/
def and_not7 (a : Nat) : Nat := a - a % 8

/-- The loop of lines 186-191: `jm` is the pair of the counter `j` and the
stores made so far (address, object); `acc` is the address of the buffer. -/
def copy_axis (acc : Nat) (active_scan_mask : Nat) (accel_data : Vec3)
    (jm : Nat × List (Nat × Cell)) (i : Nat) : Nat × List (Nat × Cell) :=
  if active_scan_mask.testBit i then
    (jm.1 + 1, jm.2 ++ [(acc + 4 * jm.1, Cell.s32 (accel_data.get i))])
  else jm

/-- Driver function `yas_trigger_handler` (line 168).  `kmalloc` is the address returned by
`kmalloc(datasize, GFP_KERNEL)` (`none` for `NULL`).  The result is the return
value and, when the record was handed to `store_to`, the objects stored in
the buffer with their addresses, in the order they were written. -/
def yas_trigger_handler (kmalloc : Option Nat) (active_scan_mask masklength : Nat)
    (scan_timestamp : Bool) (st : yas_state) (timestamp : Int) :
    Int × Option (List (Nat × Cell)) :=
  match kmalloc with
  | none => (-ENOMEM, none)
  | some acc =>
    let jm :=
      if !bitmap_empty active_scan_mask masklength then
        [0, 1, 2].foldl (copy_axis acc active_scan_mask st.accel_data) (0, [])
      else (0, [])
    let len := if !bitmap_empty active_scan_mask masklength then jm.1 * 4 else 0
    let mem :=
      if scan_timestamp then
        jm.2 ++ [(and_not7 (acc + len + 8 - 1), Cell.s64 timestamp)]
      else jm.2
    (IRQ_HANDLED, some mem)

/-- The record layout in the words of the specification: the values of the
active axes, in ascending axis order X, Y, Z, masked-out axes skipped. -/
def active_values (x y z : Bool) (sample : Vec3) : List Int :=
  (if x then [sample.x] else []) ++ (if y then [sample.y] else []) ++
    (if z then [sample.z] else [])

/-- The record layout in the words of the specification: consecutive 32-bit
fields starting at `base`. -/
def fields_at (base : Nat) : List Int → List (Nat × Cell)
  | [] => []
  | v :: vs => (base, Cell.s32 v) :: fields_at (base + 4) vs

/-! ## Runs of the driver -/

/-- The entry points that act on the enable flag and the work item. -/
inductive Action where
  | enable
  | disable
  | set_pseudo_irq (enable : Int)
  | poll (ret : Int) (acc : Vec3) (time_before time_after : Int)
  | suspend
  | resume
  | early_suspend
  | late_resume
  deriving DecidableEq, Repr

/-- Modelled from the spec: the work queue (kernel, not in this file) runs the
work function only when the work item is scheduled (Scheduled to Running when
the scheduler fires); the item is no longer pending when the function
starts. -/
def fire (msecs_to_jiffies : Nat → Nat) (st : yas_state) (ret : Int) (acc : Vec3)
    (time_before time_after : Int) : Option yas_state :=
  match st.work with
  | none => some st
  | some _ => yas_work_func msecs_to_jiffies { st with work := none } ret acc
      time_before time_after

/-- One action of the environment on the driver. -/
def step (msecs_to_jiffies : Nat → Nat) (st : yas_state) : Action → Option yas_state
  | Action.enable => some (yas_pseudo_irq_enable st).2
  | Action.disable => some (yas_pseudo_irq_disable st).2
  | Action.set_pseudo_irq enable => some (yas_set_pseudo_irq st enable).2
  | Action.poll ret acc tb ta => fire msecs_to_jiffies st ret acc tb ta
  | Action.suspend => some (yas_suspend st).2
  | Action.resume => some (yas_resume st).2
  | Action.early_suspend => some (yas_early_suspend st)
  | Action.late_resume => some (yas_late_resume st)

/-- A finite sequence of actions, from left to right. -/
def run (msecs_to_jiffies : Nat → Nat) (st : yas_state) : List Action → Option yas_state
  | [] => some st
  | a :: as =>
    match step msecs_to_jiffies st a with
    | none => none
    | some st1 => run msecs_to_jiffies st1 as

/-- Whether the action is a call of the enable controller or a poll-loop
iteration. -/
def Action.isEnableOrPoll : Action → Bool
  | Action.enable => true
  | Action.disable => true
  | Action.set_pseudo_irq _ => true
  | Action.poll _ _ _ _ => true
  | _ => false

/-- Whether the action asks for the enabled state. -/
def Action.isEnable : Action → Bool
  | Action.enable => true
  | Action.set_pseudo_irq v => v ≠ 0
  | _ => false

/-- The arguments of the `set_enable` calls of a trace, in order. -/
def setEnableCalls : List Event → List Int
  | [] => []
  | Event.set_enable v :: es => v :: setEnableCalls es
  | _ :: es => setEnableCalls es

/-- The state `yas_probe` sets up (lines 524-558): the zeroed allocation with
frequency 20, data and bias zero, no work scheduled. -/
def probe_state : yas_state :=
  { sampling_frequency := 20, pseudo_irq_enable := 0,
    accel_data := ⟨0, 0, 0⟩, calib_bias := ⟨0, 0, 0⟩,
    work := none, trace := [] }

/-! ## Predicates used in the statements -/

/-- What `yas_suspend` and `yas_early_suspend` do to a state whose flag is not
0: the work is cancelled, then `set_enable(0)` is called. -/
def suspended (st : yas_state) : yas_state :=
  { st with work := none
            trace := st.trace ++ [Event.cancel_delayed_work_sync, Event.set_enable 0] }

/-- The invariant of the enable controller: the flag is 0 or 1, the work is
scheduled exactly when the flag is 1, and the sampling frequency is not 0. -/
def enable_inv (st : yas_state) : Prop :=
  ((st.pseudo_irq_enable = 0 ∧ st.work = none) ∨
   (st.pseudo_irq_enable = 1 ∧ st.work.isSome = true)) ∧
  st.sampling_frequency ≠ 0

/-- What one action of the enable controller or one poll-loop iteration does
to a state satisfying the invariant. -/
def step_post (st : yas_state) (a : Action) (st1 : yas_state) : Prop :=
  (st1.work.isSome = true ↔ st1.pseudo_irq_enable = 1) ∧
  (st1.pseudo_irq_enable = 0 ∨ st1.pseudo_irq_enable = 1) ∧
  (∃ evs, st1.trace = st.trace ++ evs ∧
    setEnableCalls evs =
      if st1.pseudo_irq_enable = st.pseudo_irq_enable then []
      else [st1.pseudo_irq_enable]) ∧
  (a = Action.enable → st1.pseudo_irq_enable = 1) ∧
  (a = Action.disable → st1.pseudo_irq_enable = 0) ∧
  (∀ v, a = Action.set_pseudo_irq v →
    st1.pseudo_irq_enable = if v ≠ 0 then 1 else 0) ∧
  (∀ ret acc tb ta, a = Action.poll ret acc tb ta →
    st1.pseudo_irq_enable = st.pseudo_irq_enable)

/-- The calls made by one poll-loop iteration that reschedules with `n`. -/
def poll_events (ret : Int) (n : Nat) : List Event :=
  if ret = 1 then [Event.measure, Event.trig_poll, Event.schedule_delayed_work n]
  else [Event.measure, Event.schedule_delayed_work n]

/-- The `active_scan_mask` bitmap with the bits `YAS_SCAN_ACCEL_X` (0),
`YAS_SCAN_ACCEL_Y` (1), `YAS_SCAN_ACCEL_Z` (2) set as given. -/
def scan_mask (x y z : Bool) : Nat :=
  (if x then 1 else 0) + (if y then 2 else 0) + (if z then 4 else 0)

/-! ## Arithmetic lemmas -/

theorem cdiv_of_ne_zero (a b : Int) (h : b ≠ 0) : cdiv a b = some (Int.tdiv a b) := by
  simp [cdiv, h]

theorem cdiv_zero (a : Int) : cdiv a 0 = none := by
  simp [cdiv]

theorem tdiv_thousand_of_pos (f : Int) (h : 0 < f) : Int.tdiv 1000 f = 1000 / f :=
  Int.tdiv_eq_ediv (by decide) (le_of_lt h)

theorem thousand_div_bounds (f : Int) (h : 0 < f) :
    0 ≤ (1000 : Int) / f ∧ (1000 : Int) / f ≤ 1000 :=
  ⟨Int.ediv_nonneg (by decide) (le_of_lt h), Int.ediv_le_self _ (by decide)⟩

theorem wrap32_of_mem (x : Int) (h1 : -2147483648 ≤ x) (h2 : x < 2147483648) :
    wrap32 x = x := by
  unfold wrap32; omega

theorem wrap32_bounds (x : Int) : -2147483648 ≤ wrap32 x ∧ wrap32 x < 2147483648 := by
  unfold wrap32; omega

theorem wrap16_of_mem (x : Int) (h1 : -32768 ≤ x) (h2 : x < 32768) : wrap16 x = x := by
  unfold wrap16; omega

theorem wrapU32_bounds (x : Int) : 0 ≤ wrapU32 x ∧ wrapU32 x < 4294967296 := by
  unfold wrapU32; omega

/-- The delay computed by the poll loop is defined for a nonzero frequency and
is the 32-bit difference clamped below by 1. -/
theorem yas_work_delay_eq (f tb ta : Int) (h : f ≠ 0) :
    yas_work_delay f tb ta =
      some (max 1 (wrap32 (Int.tdiv 1000 f - wrapU32 (ta - tb)))) := by
  unfold yas_work_delay
  rw [show MSEC_PER_SEC = 1000 from rfl, cdiv_of_ne_zero _ _ h]
  simp only
  split
  · rw [max_eq_left (by omega)]
  · rw [max_eq_right (by omega)]

/-- The state of `yas_work_func` just before it computes the delay. -/
theorem yas_work_func_eq (m2j : Nat → Nat) (st : yas_state) (ret : Int) (acc : Vec3)
    (tb ta : Int) (h : st.sampling_frequency ≠ 0) :
    yas_work_func m2j st ret acc tb ta =
      some (schedule_delayed_work
        (if ret = 1 then
          { st with
            accel_data := ⟨wrap32 (acc.x - st.calib_bias.x),
              wrap32 (acc.y - st.calib_bias.y), wrap32 (acc.z - st.calib_bias.z)⟩,
            trace := st.trace ++ [Event.measure, Event.trig_poll] }
         else { st with trace := st.trace ++ [Event.measure] })
        (m2j (max 1 (wrap32 (Int.tdiv 1000 st.sampling_frequency
          - wrapU32 (ta - tb)))).toNat)) := by
  unfold yas_work_func
  by_cases hr : ret = 1
  · simp [hr, yas_state.emit, yas_data_rdy_trig_poll, yas_work_delay_eq _ _ _ h,
      Vec3.set, Vec3.get]
  · simp [hr, yas_state.emit, yas_work_delay_eq _ _ _ h]

/-! ## Sampling frequency : claims C2, C3 -/

/-- On the range of the `int16_t` field the store succeeds: the frequency read
back is `p` and `set_delay` is called once, with `1000 / p`. -/
theorem sampling_frequency_store_int16 (st : yas_state) (p count : Int)
    (h1 : 0 < p) (h2 : p ≤ 32767) :
    yas_sampling_frequency_store st 0 p count =
      some (count, { st with sampling_frequency := p,
                             trace := st.trace ++ [Event.set_delay (1000 / p)] }) := by
  unfold yas_sampling_frequency_store
  have hw : wrap16 p = p := wrap16_of_mem p (by omega) (by omega)
  have hp : ¬ p ≤ 0 := by omega
  simp only [ne_eq, not_true_eq_false, if_false, hp, hw]
  rw [show MSEC_PER_SEC = 1000 from rfl, cdiv_of_ne_zero _ _ (by omega),
    tdiv_thousand_of_pos p h1]
  rfl

/-- C2 (failing inputs): a parsed value above the `int16_t` range passes the
`data <= 0` test and is truncated by the store.  For 65536 the field becomes 0
and the division divides by zero; for 40000 the field reads back as -25536
and `set_delay` is called with 0, not with `1000 / 40000`. -/
theorem sampling_frequency_store_truncates (st : yas_state) (count : Int) :
    yas_sampling_frequency_store st 0 65536 count = none ∧
    yas_sampling_frequency_store st 0 40000 count =
      some (count, { st with sampling_frequency := -25536,
                             trace := st.trace ++ [Event.set_delay 0] }) ∧
    (yas_sampling_frequency_show { st with sampling_frequency := -25536 }).2
      = "-25536\n" := by
  refine ⟨?_, ?_, ?_⟩
  · unfold yas_sampling_frequency_store
    simp [wrap16, cdiv, MSEC_PER_SEC]
  · unfold yas_sampling_frequency_store
    simp [wrap16, cdiv, MSEC_PER_SEC, yas_state.emit]
    decide
  · rfl

/-- C3: for every parsed value `data <= 0` the store returns `-EINVAL` and the
state, the stored sampling frequency and the trace of backend calls included,
is unchanged: no `set_delay` call is made. -/
theorem sampling_frequency_store_nonpositive (st : yas_state) (data count : Int)
    (h : data ≤ 0) :
    yas_sampling_frequency_store st 0 data count = some (-EINVAL, st) ∧
    ∀ r st1, yas_sampling_frequency_store st 0 data count = some (r, st1) →
      r = -EINVAL ∧ st1.sampling_frequency = st.sampling_frequency ∧
      st1.trace = st.trace ∧
      yas_sampling_frequency_show st1 = yas_sampling_frequency_show st := by
  have e : yas_sampling_frequency_store st 0 data count = some (-EINVAL, st) := by
    unfold yas_sampling_frequency_store
    simp [h]
  refine ⟨e, ?_⟩
  intro r st1 h1
  rw [e] at h1
  simp only [Option.some.injEq, Prod.mk.injEq] at h1
  obtain ⟨hr, hs⟩ := h1
  subst hs
  exact ⟨hr.symm, rfl, rfl, rfl⟩

theorem sampling_frequency_store_nonpositive_witness :
    yas_sampling_frequency_store probe_state 0 (-5) 3 = some (-EINVAL, probe_state) ∧
    ∀ r st1, yas_sampling_frequency_store probe_state 0 (-5) 3 = some (r, st1) →
      r = -EINVAL ∧ st1.sampling_frequency = probe_state.sampling_frequency ∧
      st1.trace = probe_state.trace ∧
      yas_sampling_frequency_show st1 = yas_sampling_frequency_show probe_state :=
  sampling_frequency_store_nonpositive probe_state (-5) 3 (by decide)

/-! ## Unparsable input : claim C8 -/

/-- When `kstrtoint` reports a failure the sampling frequency store returns
that error code and changes nothing. -/
theorem sampling_frequency_store_unparsable (st : yas_state) (kret data count : Int)
    (h : kret ≠ 0) :
    yas_sampling_frequency_store st kret data count = some (kret, st) := by
  unfold yas_sampling_frequency_store
  simp [h]

/-- C8 (failing input): when `sscanf` converts nothing, `yas_position_store`
still calls `set_position` of the backend, with the value the uninitialised
local happens to hold, and returns `count` (success) when the backend accepts
it, `-EFAULT` when it does not. -/
theorem position_store_unparsable (st : yas_state) (junk ret count : Int) :
    yas_position_store st none junk ret count =
      (if ret < 0 then -EFAULT else count,
       { st with trace := st.trace ++ [Event.set_position junk] }) ∧
    yas_position_store probe_state none 7 0 4
      = (4, { probe_state with trace := [Event.set_position 7] }) := by
  refine ⟨?_, by decide⟩
  by_cases h : ret < 0 <;> simp [yas_position_store, yas_state.emit, h]

/-! ## Poll loop : claims C4, C5, C10 -/

theorem tdiv_thousand_bounds (f : Int) :
    -1000 ≤ Int.tdiv 1000 f ∧ Int.tdiv 1000 f ≤ 1000 := by
  rcases lt_trichotomy f 0 with h | h | h
  · have h1 : Int.tdiv 1000 f = -(1000 / (-f)) := by
      rw [← tdiv_thousand_of_pos (-f) (by omega), ← Int.tdiv_neg, neg_neg]
    have h2 := thousand_div_bounds (-f) (by omega)
    omega
  · subst h
    simp
  · rw [tdiv_thousand_of_pos f h]
    have h2 := thousand_div_bounds f h
    omega

theorem schedule_delayed_work_idle (st : yas_state) (d : Nat) (h : st.work = none) :
    schedule_delayed_work st d =
      { st with work := some d,
                trace := st.trace ++ [Event.schedule_delayed_work d] } := by
  simp [schedule_delayed_work, yas_state.emit, h]

theorem schedule_delayed_work_trace (st : yas_state) (d : Nat) :
    (schedule_delayed_work st d).trace = st.trace ++ [Event.schedule_delayed_work d] ∧
    (schedule_delayed_work st d).work.isSome = true ∧
    (schedule_delayed_work st d).accel_data = st.accel_data ∧
    (schedule_delayed_work st d).calib_bias = st.calib_bias ∧
    (schedule_delayed_work st d).pseudo_irq_enable = st.pseudo_irq_enable ∧
    (schedule_delayed_work st d).sampling_frequency = st.sampling_frequency := by
  unfold schedule_delayed_work
  cases h : st.work <;> simp [yas_state.emit, h]

/-- C10 (amended): for a stored frequency `f > 0` the iteration reschedules
itself with a delay `d` (milliseconds, handed to `msecs_to_jiffies`) that is
never less than 1, and `d = max(1, 1000 / f - e)` whenever the elapsed time
`e = time_after - time_before` (unsigned 32-bit) is at most
`2^31 + 1000 / f`, that is whenever the difference fits the `int32_t`. -/
theorem work_func_delay (m2j : Nat → Nat) (st : yas_state) (ret : Int) (acc : Vec3)
    (tb ta : Int) (h : 0 < st.sampling_frequency) :
    ∃ st1 d, yas_work_func m2j st ret acc tb ta = some st1 ∧
      yas_work_delay st.sampling_frequency tb ta = some d ∧
      st1.trace.getLast? = some (Event.schedule_delayed_work (m2j d.toNat)) ∧
      (st.work = none → st1.work = some (m2j d.toNat)) ∧
      1 ≤ d ∧
      (wrapU32 (ta - tb) ≤ 2147483648 + 1000 / st.sampling_frequency →
        d = max 1 (1000 / st.sampling_frequency - wrapU32 (ta - tb))) := by
  have hf : st.sampling_frequency ≠ 0 := by omega
  refine ⟨_, _, yas_work_func_eq m2j st ret acc tb ta hf,
    yas_work_delay_eq _ _ _ hf, ?_, ?_, le_max_left _ _, ?_⟩
  · rw [(schedule_delayed_work_trace _ _).1]
    simp
  · intro hw
    rw [schedule_delayed_work_idle _ _ (by split <;> exact hw)]
  · intro he
    rw [tdiv_thousand_of_pos _ h]
    have hb := thousand_div_bounds _ h
    have hu := wrapU32_bounds (ta - tb)
    rw [wrap32_of_mem _ (by omega) (by omega)]

theorem work_func_delay_witness :
    ∃ st1 d, yas_work_func id probe_state 1 ⟨100, 200, 300⟩ 1000 1003 = some st1 ∧
      yas_work_delay probe_state.sampling_frequency 1000 1003 = some d ∧
      st1.trace.getLast? = some (Event.schedule_delayed_work (id d.toNat)) ∧
      (probe_state.work = none → st1.work = some (id d.toNat)) ∧
      1 ≤ d ∧
      (wrapU32 (1003 - 1000) ≤ 2147483648 + 1000 / probe_state.sampling_frequency →
        d = max 1 (1000 / probe_state.sampling_frequency - wrapU32 (1003 - 1000))) :=
  work_func_delay id probe_state 1 ⟨100, 200, 300⟩ 1000 1003 (by decide)

/-- C10 (counterexample): with frequency 100 and an elapsed time of
`2^32 - 1` ms the 32-bit difference `10 - e` wraps to 11: the work is
rescheduled with delay 11, while `max(1, 1000 / 100 - e)` is 1. -/
theorem work_func_delay_wraps :
    yas_work_delay 100 0 4294967295 = some 11 ∧
    max 1 ((1000 : Int) / 100 - wrapU32 (4294967295 - 0)) = 1 ∧
    yas_work_func id { probe_state with sampling_frequency := 100 } 0 ⟨0, 0, 0⟩
        0 4294967295
      = some { probe_state with
                 sampling_frequency := 100
                 work := some 11
                 trace := [Event.measure, Event.schedule_delayed_work 11] } := by
  refine ⟨by decide, by decide, by decide⟩

/-- C5 (amended): in every state with a nonzero sampling frequency `f`, an
iteration whose measurement fails (`ret` other than 1) leaves `accel_data`
unchanged, makes no trigger notification (its only calls are `measure` and
the rescheduling) and reschedules the work with a delay `d >= 1`, whatever
the elapsed time `e = time_after - time_before` is; and
`d <= max(1, 1000 / f)` whenever `e <= 2^31 + 1000 / f`, that is whenever
`1000 / f - e` fits the `int32_t`. -/
theorem work_func_failed_measure (m2j : Nat → Nat) (st : yas_state) (ret : Int)
    (acc : Vec3) (tb ta : Int) (hret : ret ≠ 1) (hf : st.sampling_frequency ≠ 0) :
    ∃ st1 d, yas_work_func m2j st ret acc tb ta = some st1 ∧
      yas_work_delay st.sampling_frequency tb ta = some d ∧
      st1.accel_data = st.accel_data ∧
      st1.trace = st.trace ++
        [Event.measure, Event.schedule_delayed_work (m2j d.toNat)] ∧
      st1.work.isSome = true ∧
      (st.work = none → st1.work = some (m2j d.toNat)) ∧
      1 ≤ d ∧
      (wrapU32 (ta - tb) ≤ 2147483648 + Int.tdiv 1000 st.sampling_frequency →
        d ≤ max 1 (Int.tdiv 1000 st.sampling_frequency)) := by
  refine ⟨_, _, yas_work_func_eq m2j st ret acc tb ta hf,
    yas_work_delay_eq _ _ _ hf, ?_, ?_, ?_, ?_, le_max_left _ _, ?_⟩
  · rw [(schedule_delayed_work_trace _ _).2.2.1, if_neg hret]
  · rw [(schedule_delayed_work_trace _ _).1, if_neg hret]
    simp
  · exact (schedule_delayed_work_trace _ _).2.1
  · intro hw
    rw [if_neg hret, schedule_delayed_work_idle _ _ (by exact hw)]
  · intro he
    have hb := tdiv_thousand_bounds st.sampling_frequency
    have hu := wrapU32_bounds (ta - tb)
    rw [wrap32_of_mem _ (by omega) (by omega)]
    exact max_le_max (le_refl _) (by omega)

theorem work_func_failed_measure_witness :
    ∃ st1 d, yas_work_func id probe_state (-1) ⟨7, 8, 9⟩ 1000 1020 = some st1 ∧
      yas_work_delay probe_state.sampling_frequency 1000 1020 = some d ∧
      st1.accel_data = probe_state.accel_data ∧
      st1.trace = probe_state.trace ++
        [Event.measure, Event.schedule_delayed_work (id d.toNat)] ∧
      st1.work.isSome = true ∧
      (probe_state.work = none → st1.work = some (id d.toNat)) ∧
      1 ≤ d ∧
      (wrapU32 (1020 - 1000) ≤ 2147483648 + Int.tdiv 1000 probe_state.sampling_frequency →
        d ≤ max 1 (Int.tdiv 1000 probe_state.sampling_frequency)) :=
  work_func_failed_measure id probe_state (-1) ⟨7, 8, 9⟩ 1000 1020 (by decide)
    (by decide)

/-- C5 (counterexample): with frequency 20 (nominal delay 50 ms), a failed
measurement and an elapsed time of 3147483648 ms the work is rescheduled with
delay 1147483698 ms, above `max(1, 1000 / 20) = 50`; and in a state whose
sampling frequency is 0 the iteration divides by zero and does not reach the
rescheduling. -/
theorem work_func_failed_measure_unbounded :
    yas_work_func id probe_state 0 ⟨0, 0, 0⟩ 1000 3147484648
      = some { probe_state with
                 work := some 1147483698
                 trace := [Event.measure, Event.schedule_delayed_work 1147483698] } ∧
    ¬ ((1147483698 : Int) ≤ max 1 (Int.tdiv 1000 probe_state.sampling_frequency)) ∧
    yas_work_func id { probe_state with sampling_frequency := 0 } 0 ⟨0, 0, 0⟩ 0 0
      = none := by
  refine ⟨by decide, by decide, by decide⟩

/-- C4: for every bias `b` committed through `yas_write_raw` (CALIBBIAS, one
write per axis) and every reading `m` for which `measure` returns 1, one
iteration of `yas_work_func` (in a state whose sampling frequency is not 0)
leaves `accel_data[i] = m[i] - b[i]` in signed 32-bit arithmetic, leaves
`calib_bias` equal to `b`, and `yas_read_raw` with mask 0 then returns that
value for each axis. -/
theorem calib_bias_applied (m2j : Nat → Nat) (st : yas_state) (b m : Vec3)
    (tb ta : Int) (hf : st.sampling_frequency ≠ 0) :
    ∃ s1 s2 s3 s4,
      yas_write_raw st (YAS_ACCELEROMETER_CHANNEL IIO_MOD_X) b.x 0
        info_mask.IIO_CHAN_INFO_CALIBBIAS = some (0, s1) ∧
      yas_write_raw s1 (YAS_ACCELEROMETER_CHANNEL IIO_MOD_Y) b.y 0
        info_mask.IIO_CHAN_INFO_CALIBBIAS = some (0, s2) ∧
      yas_write_raw s2 (YAS_ACCELEROMETER_CHANNEL IIO_MOD_Z) b.z 0
        info_mask.IIO_CHAN_INFO_CALIBBIAS = some (0, s3) ∧
      s3.calib_bias = b ∧
      yas_work_func m2j s3 1 m tb ta = some s4 ∧
      s4.calib_bias = b ∧
      s4.accel_data = ⟨wrap32 (m.x - b.x), wrap32 (m.y - b.y), wrap32 (m.z - b.z)⟩ ∧
      yas_read_raw s4 (YAS_ACCELEROMETER_CHANNEL IIO_MOD_X) info_mask.RAW =
        some { ret := IIO_VAL_INT, val := some (wrap32 (m.x - b.x)), val2 := none } ∧
      yas_read_raw s4 (YAS_ACCELEROMETER_CHANNEL IIO_MOD_Y) info_mask.RAW =
        some { ret := IIO_VAL_INT, val := some (wrap32 (m.y - b.y)), val2 := none } ∧
      yas_read_raw s4 (YAS_ACCELEROMETER_CHANNEL IIO_MOD_Z) info_mask.RAW =
        some { ret := IIO_VAL_INT, val := some (wrap32 (m.z - b.z)), val2 := none } := by
  refine ⟨{ st with calib_bias := ⟨b.x, st.calib_bias.y, st.calib_bias.z⟩ },
    { st with calib_bias := ⟨b.x, b.y, st.calib_bias.z⟩ },
    { st with calib_bias := b }, _, ?_, ?_, ?_, rfl,
    yas_work_func_eq m2j _ 1 m tb ta hf, ?_, ?_, ?_, ?_, ?_⟩
  · simp [yas_write_raw, Vec3.set?, YAS_ACCELEROMETER_CHANNEL, IIO_MOD_X]
  · simp [yas_write_raw, Vec3.set?, YAS_ACCELEROMETER_CHANNEL, IIO_MOD_X, IIO_MOD_Y]
  · simp [yas_write_raw, Vec3.set?, YAS_ACCELEROMETER_CHANNEL, IIO_MOD_X, IIO_MOD_Z]
  · rw [(schedule_delayed_work_trace _ _).2.2.2.1]
    rfl
  · rw [(schedule_delayed_work_trace _ _).2.2.1]
    rfl
  · simp [yas_read_raw, (schedule_delayed_work_trace _ _).2.2.1, Vec3.get?,
      YAS_ACCELEROMETER_CHANNEL, IIO_MOD_X]
  · simp [yas_read_raw, (schedule_delayed_work_trace _ _).2.2.1, Vec3.get?,
      YAS_ACCELEROMETER_CHANNEL, IIO_MOD_X, IIO_MOD_Y]
  · simp [yas_read_raw, (schedule_delayed_work_trace _ _).2.2.1, Vec3.get?,
      YAS_ACCELEROMETER_CHANNEL, IIO_MOD_X, IIO_MOD_Z]

theorem calib_bias_applied_witness :
    ∃ s1 s2 s3 s4,
      yas_write_raw probe_state (YAS_ACCELEROMETER_CHANNEL IIO_MOD_X) 10 0
        info_mask.IIO_CHAN_INFO_CALIBBIAS = some (0, s1) ∧
      yas_write_raw s1 (YAS_ACCELEROMETER_CHANNEL IIO_MOD_Y) 0 0
        info_mask.IIO_CHAN_INFO_CALIBBIAS = some (0, s2) ∧
      yas_write_raw s2 (YAS_ACCELEROMETER_CHANNEL IIO_MOD_Z) 0 0
        info_mask.IIO_CHAN_INFO_CALIBBIAS = some (0, s3) ∧
      s3.calib_bias = ⟨10, 0, 0⟩ ∧
      yas_work_func id s3 1 ⟨100, 200, 300⟩ 0 2 = some s4 ∧
      s4.calib_bias = ⟨10, 0, 0⟩ ∧
      s4.accel_data = ⟨wrap32 (100 - 10), wrap32 (200 - 0), wrap32 (300 - 0)⟩ ∧
      yas_read_raw s4 (YAS_ACCELEROMETER_CHANNEL IIO_MOD_X) info_mask.RAW =
        some { ret := IIO_VAL_INT, val := some (wrap32 (100 - 10)), val2 := none } ∧
      yas_read_raw s4 (YAS_ACCELEROMETER_CHANNEL IIO_MOD_Y) info_mask.RAW =
        some { ret := IIO_VAL_INT, val := some (wrap32 (200 - 0)), val2 := none } ∧
      yas_read_raw s4 (YAS_ACCELEROMETER_CHANNEL IIO_MOD_Z) info_mask.RAW =
        some { ret := IIO_VAL_INT, val := some (wrap32 (300 - 0)), val2 := none } :=
  calib_bias_applied id probe_state ⟨10, 0, 0⟩ ⟨100, 200, 300⟩ 0 2 (by decide)

/-- The end-to-end scenario of the specification: frequency 20, bias
(10, 0, 0), reading (100, 200, 300) gives the sample (90, 200, 300). -/
theorem scenario_bias_ten :
    yas_work_func id { probe_state with calib_bias := ⟨10, 0, 0⟩ } 1
        ⟨100, 200, 300⟩ 0 2
      = some { probe_state with
                 calib_bias := ⟨10, 0, 0⟩
                 accel_data := ⟨90, 200, 300⟩
                 work := some 48
                 trace := [Event.measure, Event.trig_poll,
                   Event.schedule_delayed_work 48] } := by
  decide

/-! ## Power management : claim C7 -/

theorem suspend_eq (st : yas_state) :
    (yas_suspend st).2 = yas_early_suspend st ∧ (yas_suspend st).1 = 0 ∧
    (st.pseudo_irq_enable = 0 → yas_early_suspend st = st) ∧
    (st.pseudo_irq_enable ≠ 0 → yas_early_suspend st = suspended st) := by
  unfold yas_suspend yas_early_suspend
  by_cases h : st.pseudo_irq_enable = 0
  · simp [h]
  · simp [h, suspended, cancel_delayed_work_sync, yas_state.emit]

theorem resume_eq (st : yas_state) :
    (yas_resume st).2 = yas_late_resume st ∧ (yas_resume st).1 = 0 ∧
    (st.pseudo_irq_enable = 0 → yas_late_resume st = st) ∧
    (st.pseudo_irq_enable ≠ 0 → yas_late_resume st =
      schedule_delayed_work (st.emit (Event.set_enable 1)) 0) := by
  unfold yas_resume yas_late_resume
  by_cases h : st.pseudo_irq_enable = 0
  · simp [h]
  · simp [h]

/-- C7: suspend (`yas_suspend`, `yas_early_suspend`) and resume (`yas_resume`,
`yas_late_resume`) leave `pseudo_irq_enable`, `sampling_frequency`,
`calib_bias` and `accel_data` unchanged.  With the flag 0 they change nothing
at all (no backend call, no scheduling), so a device disabled before suspend
is disabled and unscheduled after resume.  With the flag 1 suspend cancels the
work and calls `set_enable(0)`; resume calls `set_enable(1)` and then
`schedule_delayed_work` with delay 0, which after a suspend leaves the work
scheduled with delay 0. -/
theorem suspend_resume_frame (st : yas_state) :
    (∀ st1 ∈ [(yas_suspend st).2, yas_early_suspend st, (yas_resume st).2,
        yas_late_resume st],
      st1.pseudo_irq_enable = st.pseudo_irq_enable ∧
      st1.sampling_frequency = st.sampling_frequency ∧
      st1.calib_bias = st.calib_bias ∧ st1.accel_data = st.accel_data) ∧
    (st.pseudo_irq_enable = 0 →
      (yas_suspend st).2 = st ∧ yas_early_suspend st = st ∧
      (yas_resume st).2 = st ∧ yas_late_resume st = st ∧
      (yas_resume (yas_suspend st).2).2 = st ∧
      yas_late_resume (yas_early_suspend st) = st) ∧
    (st.pseudo_irq_enable = 1 →
      ((yas_suspend st).2.work = none ∧
       (yas_suspend st).2.trace =
         st.trace ++ [Event.cancel_delayed_work_sync, Event.set_enable 0] ∧
       yas_early_suspend st = (yas_suspend st).2) ∧
      ((yas_resume st).2.trace =
         st.trace ++ [Event.set_enable 1, Event.schedule_delayed_work 0] ∧
       (yas_resume st).2.work.isSome = true ∧
       (st.work = none → (yas_resume st).2.work = some 0) ∧
       yas_late_resume st = (yas_resume st).2) ∧
      ((yas_resume (yas_suspend st).2).2.work = some 0 ∧
       (yas_resume (yas_suspend st).2).2.trace =
         st.trace ++ [Event.cancel_delayed_work_sync, Event.set_enable 0,
           Event.set_enable 1, Event.schedule_delayed_work 0])) := by
  obtain ⟨hs1, -, hs2, hs3⟩ := suspend_eq st
  obtain ⟨hr1, -, hr2, hr3⟩ := resume_eq st
  refine ⟨?_, ?_, ?_⟩
  · intro st1 hmem
    simp only [List.mem_cons, List.mem_singleton, List.not_mem_nil, or_false] at hmem
    rw [hs1, hr1] at hmem
    by_cases h : st.pseudo_irq_enable = 0
    · rw [hs2 h, hr2 h] at hmem
      rcases hmem with h1 | h1 | h1 | h1 <;> subst h1 <;> exact ⟨rfl, rfl, rfl, rfl⟩
    · rw [hs3 h, hr3 h] at hmem
      have ht := schedule_delayed_work_trace (st.emit (Event.set_enable 1)) 0
      rcases hmem with h1 | h1 | h1 | h1 <;> subst h1
      · exact ⟨rfl, rfl, rfl, rfl⟩
      · exact ⟨rfl, rfl, rfl, rfl⟩
      · exact ⟨ht.2.2.2.2.1, ht.2.2.2.2.2, ht.2.2.2.1, ht.2.2.1⟩
      · exact ⟨ht.2.2.2.2.1, ht.2.2.2.2.2, ht.2.2.2.1, ht.2.2.1⟩
  · intro h
    have e1 : (yas_suspend st).2 = st := by rw [hs1, hs2 h]
    have e2 : (yas_resume st).2 = st := by rw [hr1, hr2 h]
    refine ⟨e1, hs2 h, e2, hr2 h, ?_, ?_⟩
    · rw [e1, e2]
    · rw [hs2 h, hr2 h]
  · intro h
    have hne : st.pseudo_irq_enable ≠ 0 := by omega
    have e1 : (yas_suspend st).2 = suspended st := by rw [hs1, hs3 hne]
    have e2 : (yas_resume st).2 = schedule_delayed_work (st.emit (Event.set_enable 1)) 0 := by
      rw [hr1, hr3 hne]
    have ht := schedule_delayed_work_trace (st.emit (Event.set_enable 1)) 0
    refine ⟨⟨?_, ?_, ?_⟩, ⟨?_, ?_, ?_, ?_⟩, ?_⟩
    · rw [e1]; rfl
    · rw [e1]; rfl
    · rw [hs1]
    · rw [e2, ht.1]; simp [yas_state.emit]
    · rw [e2]; exact ht.2.1
    · intro hw
      rw [e2, schedule_delayed_work_idle _ _ (by exact hw)]
    · rw [hr1]
    · rw [e1]
      have hne2 : (suspended st).pseudo_irq_enable ≠ 0 := hne
      obtain ⟨hq1, -, -, hq3⟩ := resume_eq (suspended st)
      rw [hq1, hq3 hne2, schedule_delayed_work_idle _ _ (by rfl)]
      simp [suspended, yas_state.emit]

theorem suspend_resume_frame_witness :
    ((yas_suspend probe_state).2 = probe_state ∧
      yas_early_suspend probe_state = probe_state ∧
      (yas_resume probe_state).2 = probe_state ∧
      yas_late_resume probe_state = probe_state ∧
      (yas_resume (yas_suspend probe_state).2).2 = probe_state ∧
      yas_late_resume (yas_early_suspend probe_state) = probe_state) ∧
    ((yas_resume (yas_suspend (yas_pseudo_irq_enable probe_state).2).2).2.work = some 0 ∧
      (yas_resume (yas_suspend (yas_pseudo_irq_enable probe_state).2).2).2.trace =
        (yas_pseudo_irq_enable probe_state).2.trace ++
          [Event.cancel_delayed_work_sync, Event.set_enable 0,
           Event.set_enable 1, Event.schedule_delayed_work 0]) :=
  ⟨(suspend_resume_frame probe_state).2.1 (by decide),
   ((suspend_resume_frame (yas_pseudo_irq_enable probe_state).2).2.2 (by decide)).2.2⟩

/-! ## Enable controller : claims C1, C9 -/

theorem enable_of_disabled (st : yas_state) (h : st.pseudo_irq_enable = 0)
    (hw : st.work = none) :
    (yas_pseudo_irq_enable st).2 =
      { st with pseudo_irq_enable := 1
                work := some 0
                trace := st.trace ++ [Event.set_enable 1, Event.schedule_delayed_work 0] } := by
  simp [yas_pseudo_irq_enable, atomic_cmpxchg, h, schedule_delayed_work, yas_state.emit, hw]

theorem enable_of_enabled (st : yas_state) (h : st.pseudo_irq_enable = 1) :
    (yas_pseudo_irq_enable st).2 = st := by
  simp [yas_pseudo_irq_enable, atomic_cmpxchg, h]

theorem disable_of_enabled (st : yas_state) (h : st.pseudo_irq_enable = 1) :
    (yas_pseudo_irq_disable st).2 =
      { st with pseudo_irq_enable := 0
                work := none
                trace := st.trace ++ [Event.cancel_delayed_work_sync, Event.set_enable 0] } := by
  simp [yas_pseudo_irq_disable, atomic_cmpxchg, h, cancel_delayed_work_sync, yas_state.emit]

theorem disable_of_disabled (st : yas_state) (h : st.pseudo_irq_enable = 0) :
    (yas_pseudo_irq_disable st).2 = st := by
  simp [yas_pseudo_irq_disable, atomic_cmpxchg, h]

theorem set_pseudo_irq_eq (st : yas_state) (v : Int) :
    (yas_set_pseudo_irq st v).2 =
      if v ≠ 0 then (yas_pseudo_irq_enable st).2 else (yas_pseudo_irq_disable st).2 := by
  unfold yas_set_pseudo_irq
  split <;> rfl

theorem enable_post (st : yas_state) (hi : enable_inv st) :
    enable_inv (yas_pseudo_irq_enable st).2 ∧
    (yas_pseudo_irq_enable st).2.pseudo_irq_enable = 1 ∧
    ∃ evs, (yas_pseudo_irq_enable st).2.trace = st.trace ++ evs ∧
      setEnableCalls evs = if (1 : Int) = st.pseudo_irq_enable then [] else [1] := by
  obtain ⟨h | h, hf⟩ := hi
  · rw [enable_of_disabled st h.1 h.2]
    refine ⟨⟨Or.inr ⟨rfl, rfl⟩, hf⟩, rfl, _, rfl, ?_⟩
    simp [h.1, setEnableCalls]
  · rw [enable_of_enabled st h.1]
    refine ⟨⟨Or.inr h, hf⟩, h.1, [], by simp, ?_⟩
    simp [h.1, setEnableCalls]

theorem disable_post (st : yas_state) (hi : enable_inv st) :
    enable_inv (yas_pseudo_irq_disable st).2 ∧
    (yas_pseudo_irq_disable st).2.pseudo_irq_enable = 0 ∧
    ∃ evs, (yas_pseudo_irq_disable st).2.trace = st.trace ++ evs ∧
      setEnableCalls evs = if (0 : Int) = st.pseudo_irq_enable then [] else [0] := by
  obtain ⟨h | h, hf⟩ := hi
  · rw [disable_of_disabled st h.1]
    refine ⟨⟨Or.inl h, hf⟩, h.1, [], by simp, ?_⟩
    simp [h.1, setEnableCalls]
  · rw [disable_of_enabled st h.1]
    refine ⟨⟨Or.inl ⟨rfl, rfl⟩, hf⟩, rfl, _, rfl, ?_⟩
    simp [h.1, setEnableCalls]

theorem fire_eq (m2j : Nat → Nat) (st : yas_state) (ret : Int) (acc : Vec3)
    (tb ta : Int) (d : Nat) (hd : st.work = some d) (hf : st.sampling_frequency ≠ 0) :
    fire m2j st ret acc tb ta =
      some { st with
        accel_data :=
          if ret = 1 then ⟨wrap32 (acc.x - st.calib_bias.x),
            wrap32 (acc.y - st.calib_bias.y), wrap32 (acc.z - st.calib_bias.z)⟩
          else st.accel_data
        work := some (m2j (max 1 (wrap32 (Int.tdiv 1000 st.sampling_frequency
          - wrapU32 (ta - tb)))).toNat)
        trace := st.trace ++ poll_events ret
          (m2j (max 1 (wrap32 (Int.tdiv 1000 st.sampling_frequency
            - wrapU32 (ta - tb)))).toNat) } := by
  have e : fire m2j st ret acc tb ta =
      yas_work_func m2j { st with work := none } ret acc tb ta := by
    simp [fire, hd]
  rw [e, yas_work_func_eq m2j _ ret acc tb ta (by exact hf)]
  by_cases hr : ret = 1
  · simp [hr, schedule_delayed_work, yas_state.emit, poll_events]
  · simp [hr, schedule_delayed_work, yas_state.emit, poll_events]

theorem setEnableCalls_poll_events (ret : Int) (n : Nat) :
    setEnableCalls (poll_events ret n) = [] := by
  unfold poll_events
  split <;> rfl

theorem fire_post (m2j : Nat → Nat) (st : yas_state) (ret : Int) (acc : Vec3)
    (tb ta : Int) (hi : enable_inv st) :
    ∃ st1, fire m2j st ret acc tb ta = some st1 ∧ enable_inv st1 ∧
      st1.pseudo_irq_enable = st.pseudo_irq_enable ∧
      ∃ evs, st1.trace = st.trace ++ evs ∧ setEnableCalls evs = [] := by
  obtain ⟨h | h, hf⟩ := hi
  · refine ⟨st, ?_, ⟨Or.inl h, hf⟩, rfl, [], by simp, rfl⟩
    simp [fire, h.2]
  · obtain ⟨d, hd⟩ := Option.isSome_iff_exists.mp h.2
    exact ⟨_, fire_eq m2j st ret acc tb ta d hd hf, ⟨Or.inr ⟨h.1, rfl⟩, hf⟩, rfl,
      _, rfl, setEnableCalls_poll_events _ _⟩

theorem step_inv (m2j : Nat → Nat) (st : yas_state) (a : Action) (hi : enable_inv st)
    (ha : a.isEnableOrPoll = true) :
    ∃ st1, step m2j st a = some st1 ∧ enable_inv st1 ∧ step_post st a st1 := by
  have hflag : ∀ s : yas_state, enable_inv s →
      ((s.work.isSome = true ↔ s.pseudo_irq_enable = 1) ∧
       (s.pseudo_irq_enable = 0 ∨ s.pseudo_irq_enable = 1)) := by
    intro s hs
    obtain ⟨h | h, -⟩ := hs
    · simp [h.1, h.2]
    · simp [h.1, h.2]
  cases a with
  | enable =>
    obtain ⟨h1, h2, evs, h3, h4⟩ := enable_post st hi
    refine ⟨_, rfl, h1, (hflag _ h1).1, (hflag _ h1).2, ⟨evs, h3, ?_⟩, fun _ => h2,
      (fun h => by cases h), (fun v h => by cases h), (fun _ _ _ _ h => by cases h)⟩
    rw [h4, h2]
  | disable =>
    obtain ⟨h1, h2, evs, h3, h4⟩ := disable_post st hi
    refine ⟨_, rfl, h1, (hflag _ h1).1, (hflag _ h1).2, ⟨evs, h3, ?_⟩,
      (fun h => by cases h), fun _ => h2, (fun v h => by cases h),
      (fun _ _ _ _ h => by cases h)⟩
    rw [h4, h2]
  | set_pseudo_irq v =>
    refine ⟨(yas_set_pseudo_irq st v).2, rfl, ?_⟩
    rw [set_pseudo_irq_eq]
    by_cases hv : v ≠ 0
    · rw [if_pos hv]
      obtain ⟨h1, h2, evs, h3, h4⟩ := enable_post st hi
      refine ⟨h1, (hflag _ h1).1, (hflag _ h1).2, ⟨evs, h3, ?_⟩, (fun h => by cases h),
        (fun h => by cases h), fun w h => ?_, (fun _ _ _ _ h => by cases h)⟩
      · rw [h4, h2]
      · cases h; rw [h2, if_pos hv]
    · rw [if_neg hv]
      obtain ⟨h1, h2, evs, h3, h4⟩ := disable_post st hi
      refine ⟨h1, (hflag _ h1).1, (hflag _ h1).2, ⟨evs, h3, ?_⟩, (fun h => by cases h),
        (fun h => by cases h), fun w h => ?_, (fun _ _ _ _ h => by cases h)⟩
      · rw [h4, h2]
      · cases h; rw [h2, if_neg hv]
  | poll ret acc tb ta =>
    obtain ⟨st1, h0, h1, h2, evs, h3, h4⟩ := fire_post m2j st ret acc tb ta hi
    refine ⟨st1, h0, h1, (hflag _ h1).1, (hflag _ h1).2, ⟨evs, h3, ?_⟩,
      (fun h => by cases h), (fun h => by cases h), (fun v h => by cases h),
      fun _ _ _ _ _ => h2⟩
    rw [h4, if_pos h2]
  | suspend => cases ha
  | resume => cases ha
  | early_suspend => cases ha
  | late_resume => cases ha

theorem run_inv (m2j : Nat → Nat) (acts : List Action) :
    ∀ st : yas_state, enable_inv st → (∀ b ∈ acts, b.isEnableOrPoll = true) →
      ∃ st1, run m2j st acts = some st1 ∧ enable_inv st1 := by
  induction acts with
  | nil => intro st hi _; exact ⟨st, rfl, hi⟩
  | cons a as ih =>
    intro st hi hall
    obtain ⟨st1, h1, h2, -⟩ := step_inv m2j st a hi (hall a (List.mem_cons_self _ _))
    obtain ⟨st2, h3, h4⟩ := ih st1 h2 (fun b hb => hall b (List.mem_cons_of_mem _ hb))
    exact ⟨st2, by simp [run, h1, h3], h4⟩

/-- C1: start from any state with `pseudo_irq_enable = 0`, no work scheduled
and a nonzero sampling frequency, and run any finite sequence `pre` of
`yas_pseudo_irq_enable`, `yas_pseudo_irq_disable`, `yas_set_pseudo_irq` calls
and poll-loop iterations.  The run completes, and whatever call or iteration
`a` comes next: afterwards the work is scheduled if and only if the flag is 1;
the flag has the value the call asked for (an iteration keeps it); and the
`set_enable` calls made by `a` are none when the flag keeps its value and
exactly one, with the new value of the flag, when the flag changes. -/
theorem enable_disable_invariant (m2j : Nat → Nat) (st0 : yas_state)
    (pre : List Action) (a : Action)
    (h0 : st0.pseudo_irq_enable = 0) (hw : st0.work = none)
    (hf : st0.sampling_frequency ≠ 0)
    (hpre : ∀ b ∈ pre, b.isEnableOrPoll = true) (ha : a.isEnableOrPoll = true) :
    ∃ st st1 evs, run m2j st0 pre = some st ∧ step m2j st a = some st1 ∧
      (st1.work.isSome = true ↔ st1.pseudo_irq_enable = 1) ∧
      (st1.pseudo_irq_enable = 0 ∨ st1.pseudo_irq_enable = 1) ∧
      st1.trace = st.trace ++ evs ∧
      setEnableCalls evs =
        (if st1.pseudo_irq_enable = st.pseudo_irq_enable then []
         else [st1.pseudo_irq_enable]) ∧
      (a = Action.enable → st1.pseudo_irq_enable = 1) ∧
      (a = Action.disable → st1.pseudo_irq_enable = 0) ∧
      (∀ v, a = Action.set_pseudo_irq v →
        st1.pseudo_irq_enable = if v ≠ 0 then 1 else 0) ∧
      (∀ ret acc tb ta, a = Action.poll ret acc tb ta →
        st1.pseudo_irq_enable = st.pseudo_irq_enable) := by
  obtain ⟨st, h1, h2⟩ := run_inv m2j pre st0 ⟨Or.inl ⟨h0, hw⟩, hf⟩ hpre
  obtain ⟨st1, h3, -, p1, p2, ⟨evs, p3, p4⟩, p5, p6, p7, p8⟩ := step_inv m2j st a h2 ha
  exact ⟨st, st1, evs, h1, h3, p1, p2, p3, p4, p5, p6, p7, p8⟩

theorem enable_disable_invariant_witness :
    ∃ st st1 evs,
      run id probe_state
        [Action.enable, Action.poll 1 ⟨100, 200, 300⟩ 0 2, Action.enable,
         Action.disable, Action.set_pseudo_irq 0] = some st ∧
      step id st Action.enable = some st1 ∧
      (st1.work.isSome = true ↔ st1.pseudo_irq_enable = 1) ∧
      (st1.pseudo_irq_enable = 0 ∨ st1.pseudo_irq_enable = 1) ∧
      st1.trace = st.trace ++ evs ∧
      setEnableCalls evs =
        (if st1.pseudo_irq_enable = st.pseudo_irq_enable then []
         else [st1.pseudo_irq_enable]) ∧
      (Action.enable = Action.enable → st1.pseudo_irq_enable = 1) ∧
      (Action.enable = Action.disable → st1.pseudo_irq_enable = 0) ∧
      (∀ v, Action.enable = Action.set_pseudo_irq v →
        st1.pseudo_irq_enable = if v ≠ 0 then 1 else 0) ∧
      (∀ ret acc tb ta, Action.enable = Action.poll ret acc tb ta →
        st1.pseudo_irq_enable = st.pseudo_irq_enable) :=
  enable_disable_invariant id probe_state
    [Action.enable, Action.poll 1 ⟨100, 200, 300⟩ 0 2, Action.enable,
     Action.disable, Action.set_pseudo_irq 0] Action.enable rfl rfl (by decide)
    (by decide) rfl

/-- An example run: enable, one iteration, a repeated enable, disable, a
repeated disable.  `set_enable` is called twice,
with 1 and then with 0, and the work ends idle. -/
theorem enable_disable_example :
    run id probe_state
      [Action.enable, Action.poll 1 ⟨100, 200, 300⟩ 0 2, Action.enable,
       Action.disable, Action.set_pseudo_irq 0]
      = some { probe_state with
                 accel_data := ⟨100, 200, 300⟩
                 trace := [Event.set_enable 1, Event.schedule_delayed_work 0,
                   Event.measure, Event.trig_poll, Event.schedule_delayed_work 48,
                   Event.cancel_delayed_work_sync, Event.set_enable 0] } := by
  decide

theorem step_disabled (m2j : Nat → Nat) (st : yas_state) (a : Action)
    (h : st.pseudo_irq_enable = 0) (hw : st.work = none) (ha : a.isEnable = false) :
    step m2j st a = some st := by
  cases a with
  | enable => cases ha
  | disable => simp [step, disable_of_disabled st h]
  | set_pseudo_irq v =>
    have hv : v = 0 := by simpa [Action.isEnable] using ha
    simp [step, set_pseudo_irq_eq, hv, disable_of_disabled st h]
  | poll ret acc tb ta => simp [step, fire, hw]
  | suspend => simp [step, (suspend_eq st).1, (suspend_eq st).2.2.1 h]
  | resume => simp [step, (resume_eq st).1, (resume_eq st).2.2.1 h]
  | early_suspend => simp [step, (suspend_eq st).2.2.1 h]
  | late_resume => simp [step, (resume_eq st).2.2.1 h]

theorem run_disabled (m2j : Nat → Nat) (st : yas_state) (h : st.pseudo_irq_enable = 0)
    (hw : st.work = none) (acts : List Action) (ha : ∀ a ∈ acts, a.isEnable = false) :
    run m2j st acts = some st := by
  induction acts with
  | nil => rfl
  | cons a as ih =>
    simp only [run, step_disabled m2j st a h hw (ha a (List.mem_cons_self _ _))]
    exact ih (fun b hb => ha b (List.mem_cons_of_mem _ hb))

/-- C9 (amended): `yas_work_func` reschedules itself whatever the value of
`pseudo_irq_enable` is (it does not read the flag).  The loop is stopped by
`yas_pseudo_irq_disable`: called with the flag 1 it cancels the work, so that
afterwards the flag is 0 and no work is scheduled, and every further sequence
of actions without an enable request (disable calls, poll attempts,
suspend/resume) leaves the state and its trace as they are: no backend
measurement occurs until the next enable. -/
theorem disable_stops_polling (m2j : Nat → Nat) (st : yas_state) (ret : Int)
    (acc : Vec3) (tb ta : Int) (acts : List Action)
    (hf : st.sampling_frequency ≠ 0) (hflag : st.pseudo_irq_enable = 1)
    (hacts : ∀ a ∈ acts, a.isEnable = false) :
    (∀ flag, ∃ st1,
      yas_work_func m2j { st with pseudo_irq_enable := flag } ret acc tb ta = some st1 ∧
      st1.pseudo_irq_enable = flag ∧ st1.work.isSome = true) ∧
    (yas_pseudo_irq_disable st).2.pseudo_irq_enable = 0 ∧
    (yas_pseudo_irq_disable st).2.work = none ∧
    run m2j (yas_pseudo_irq_disable st).2 acts = some (yas_pseudo_irq_disable st).2 := by
  refine ⟨?_, ?_, ?_, ?_⟩
  · intro flag
    refine ⟨_, yas_work_func_eq m2j _ ret acc tb ta (by exact hf), ?_,
      (schedule_delayed_work_trace _ _).2.1⟩
    rw [(schedule_delayed_work_trace _ _).2.2.2.2.1]
    split <;> rfl
  · rw [disable_of_enabled st hflag]
  · rw [disable_of_enabled st hflag]
  · apply run_disabled _ _ _ _ _ hacts
    · rw [disable_of_enabled st hflag]
    · rw [disable_of_enabled st hflag]

theorem disable_stops_polling_witness :
    (∀ flag, ∃ st1,
      yas_work_func id
        { (yas_pseudo_irq_enable probe_state).2 with pseudo_irq_enable := flag }
        1 ⟨1, 2, 3⟩ 0 0 = some st1 ∧
      st1.pseudo_irq_enable = flag ∧ st1.work.isSome = true) ∧
    (yas_pseudo_irq_disable (yas_pseudo_irq_enable probe_state).2).2.pseudo_irq_enable = 0 ∧
    (yas_pseudo_irq_disable (yas_pseudo_irq_enable probe_state).2).2.work = none ∧
    run id (yas_pseudo_irq_disable (yas_pseudo_irq_enable probe_state).2).2
        [Action.poll 1 ⟨1, 2, 3⟩ 0 0, Action.disable, Action.suspend, Action.resume,
         Action.poll 1 ⟨1, 2, 3⟩ 50 50]
      = some (yas_pseudo_irq_disable (yas_pseudo_irq_enable probe_state).2).2 :=
  disable_stops_polling id (yas_pseudo_irq_enable probe_state).2 1 ⟨1, 2, 3⟩ 0 0
    [Action.poll 1 ⟨1, 2, 3⟩ 0 0, Action.disable, Action.suspend, Action.resume,
     Action.poll 1 ⟨1, 2, 3⟩ 50 50] (by decide) (by decide) (by decide)

/-- C9 (counterexample): in the state set up by `yas_probe`, where
`pseudo_irq_enable` is 0, an iteration of `yas_work_func` reaches its
rescheduling step with the flag still 0 and schedules the work again (delay
50). -/
theorem work_func_ignores_flag :
    probe_state.pseudo_irq_enable = 0 ∧
    yas_work_func id probe_state 1 ⟨100, 200, 300⟩ 0 0
      = some { probe_state with
                 accel_data := ⟨100, 200, 300⟩
                 work := some 50
                 trace := [Event.measure, Event.trig_poll,
                   Event.schedule_delayed_work 50] } := by
  refine ⟨rfl, by decide⟩

/-! ## Capture trigger : claim C6 -/

theorem bitmap_empty_scan_mask (x y z : Bool) (masklength : Nat) (h : 3 ≤ masklength) :
    bitmap_empty (scan_mask x y z) masklength = decide (scan_mask x y z = 0) := by
  have h8 : 2 ^ 3 ≤ 2 ^ masklength := Nat.pow_le_pow_right (by decide) h
  have hlt : scan_mask x y z < 2 ^ masklength := by
    have : scan_mask x y z < 8 := by
      unfold scan_mask
      cases x <;> cases y <;> cases z <;> decide
    omega
  unfold bitmap_empty
  rw [Nat.mod_eq_of_lt hlt]

theorem and_not7_aligned (base n : Nat) (h : base % 8 = 0) :
    and_not7 (base + n + 8 - 1) = base + (n + 7 - (n + 7) % 8) := by
  unfold and_not7
  omega

/-- C6: for every subset of the axes X, Y, Z in the scan mask, every stored
sample and either setting of `scan_timestamp`, the record
`yas_trigger_handler` hands to the buffer (allocated at an 8-byte aligned
address `base`) holds exactly the values of the active axes as consecutive
32-bit fields from offset 0, in the order X, Y, Z with masked-out axes
skipped, followed, exactly when `scan_timestamp` is set, by the timestamp as
a 64-bit field at offset `off`, the smallest multiple of 8 that is at least
4 times the number of active axes.  With the mask X, Z and no timestamp the
record is the two fields X, Z. -/
theorem trigger_handler_record (base masklength : Nat) (x y z ts : Bool)
    (st : yas_state) (timestamp : Int) (hbase : base % 8 = 0)
    (hlen : 3 ≤ masklength) :
    ∃ off,
      yas_trigger_handler (some base) (scan_mask x y z) masklength ts st timestamp =
        (IRQ_HANDLED,
          some (fields_at base (active_values x y z st.accel_data) ++
            if ts then [(base + off, Cell.s64 timestamp)] else [])) ∧
      off % 8 = 0 ∧
      4 * (active_values x y z st.accel_data).length ≤ off ∧
      (∀ m, m % 8 = 0 → 4 * (active_values x y z st.accel_data).length ≤ m → off ≤ m) ∧
      (active_values x y z st.accel_data).length =
        (if x then 1 else 0) + (if y then 1 else 0) + (if z then 1 else 0) ∧
      yas_trigger_handler (some base) (scan_mask true false true) masklength false st
          timestamp =
        (IRQ_HANDLED,
          some [(base, Cell.s32 st.accel_data.x), (base + 4, Cell.s32 st.accel_data.z)]) := by
  refine ⟨4 * (active_values x y z st.accel_data).length + 7
      - (4 * (active_values x y z st.accel_data).length + 7) % 8, ?_, by omega, by omega,
    fun m h1 h2 => by omega, ?_, ?_⟩
  · unfold yas_trigger_handler
    simp only [bitmap_empty_scan_mask _ _ _ _ hlen, and_not7_aligned _ _ hbase]
    cases x <;> cases y <;> cases z <;> cases ts <;>
      simp [scan_mask, copy_axis, active_values, fields_at, Vec3.get, Nat.testBit]
  · cases x <;> cases y <;> cases z <;> simp [active_values]
  · unfold yas_trigger_handler
    simp only [bitmap_empty_scan_mask _ _ _ _ hlen]
    simp [scan_mask, copy_axis, Vec3.get, Nat.testBit]

theorem trigger_handler_record_witness :
    ∃ off,
      yas_trigger_handler (some 4096) (scan_mask true true false) 4 true
          { probe_state with accel_data := ⟨90, 200, 300⟩ } 123456789 =
        (IRQ_HANDLED,
          some (fields_at 4096 (active_values true true false
              ({ probe_state with accel_data := ⟨90, 200, 300⟩ } : yas_state).accel_data) ++
            if true then [(4096 + off, Cell.s64 123456789)] else [])) ∧
      off % 8 = 0 ∧
      4 * (active_values true true false
        ({ probe_state with accel_data := ⟨90, 200, 300⟩ } : yas_state).accel_data).length
          ≤ off ∧
      (∀ m, m % 8 = 0 → 4 * (active_values true true false
        ({ probe_state with accel_data := ⟨90, 200, 300⟩ } : yas_state).accel_data).length
          ≤ m → off ≤ m) ∧
      (active_values true true false
        ({ probe_state with accel_data := ⟨90, 200, 300⟩ } : yas_state).accel_data).length =
        (if true then 1 else 0) + (if true then 1 else 0) + (if false then 1 else 0) ∧
      yas_trigger_handler (some 4096) (scan_mask true false true) 4 false
          { probe_state with accel_data := ⟨90, 200, 300⟩ } 123456789 =
        (IRQ_HANDLED,
          some [(4096, Cell.s32 ({ probe_state with accel_data := ⟨90, 200, 300⟩ } :
                  yas_state).accel_data.x),
                (4096 + 4, Cell.s32 ({ probe_state with accel_data := ⟨90, 200, 300⟩ } :
                  yas_state).accel_data.z)]) :=
  trigger_handler_record 4096 4 true true false true
    { probe_state with accel_data := ⟨90, 200, 300⟩ } 123456789 (by decide) (by decide)

/-- Example records: with X, Y active the timestamp is at offset 8; with all
three axes active it is at offset 16; a failed allocation returns `-ENOMEM`
and stores no record. -/
theorem trigger_handler_example :
    yas_trigger_handler (some 4096) (scan_mask true true false) 4 true
        { probe_state with accel_data := ⟨90, 200, 300⟩ } 123456789 =
      (1, some [(4096, Cell.s32 90), (4100, Cell.s32 200), (4104, Cell.s64 123456789)]) ∧
    yas_trigger_handler (some 4096) (scan_mask true true true) 4 true
        { probe_state with accel_data := ⟨90, 200, 300⟩ } 123456789 =
      (1, some [(4096, Cell.s32 90), (4100, Cell.s32 200), (4104, Cell.s32 300),
        (4112, Cell.s64 123456789)]) ∧
    yas_trigger_handler none (scan_mask true true true) 4 true probe_state 5 =
      (-12, none) := by
  refine ⟨by decide, by decide, by decide⟩

end Yas
